import Mathlib

/-!
Shallow embedding of the lpp-vita-project build script (src/gulpfile.ts).

Modelling conventions:
- JS nullable values (null or undefined) are modelled with Option.
- A parsed JSON descriptor file is modelled with an outer Option per key
  marking key presence (none = key absent from the file) and an inner value
  that may itself be null.
- The filesystem is a list of existing paths; existsSync is membership.
- Network effects (netcat command socket, FTP session) are modelled as
  explicit data: an event list for the command client, and a DeployWorld
  record describing which remote directories exist and whether the FTP
  server is reachable.
- The mutation performed by Object.assign on the shared defaults record is
  modelled by threading the current contents of defaults.config as explicit
  state: readConfiguration returns both the configuration object and the
  new defaults state (in the source they are the same object).
-/

/-- Ports record of a project configuration (gulpfile.ts lines 19, 32-35);
each field may be absent at runtime, hence Option. -/
structure Ports where
  ftp : Option Nat
  cmd : Option Nat
  deriving DecidableEq

/-- The IVitaProjectConfiguration interface (gulpfile.ts lines 15-22).
Every field is Option because a merged JSON file can leave any of them
null or undefined at runtime, and the code guards several of them. -/
structure IVitaProjectConfiguration where
  id : Option String
  title : Option String
  ip : Option String
  ports : Option Ports
  srcDir : Option String
  outDir : Option String
  deriving DecidableEq

/-- A parsed project descriptor file. Outer Option: key present in the
JSON text or not. Inner value: the parsed value, which may be null. -/
structure ParsedConfiguration where
  id : Option (Option String)
  title : Option (Option String)
  ip : Option (Option String)
  ports : Option (Option Ports)
  srcDir : Option (Option String)
  outDir : Option (Option String)
  deriving DecidableEq

/-- The errors record of gulpfile.ts (lines 41-53), as tags. The first
seven constructors are the keys of the errors object. The last two model
errors raised by the basic-ftp client: a failed connection in ftp.access,
and the 550 reply produced by ftp.cd on a directory that does not exist. -/
inductive VitaError
  | projectConfigFileIsMissing
  | idDoesNotConformRequirements
  | titleIsNotAvailable
  | srcDirDoesntExists
  | ebootFileIsMissing
  | indexFileIsMissing
  | ipIsNotDefined
  | ftpConnectionFailed
  | remoteDirNotFound
  deriving DecidableEq

/-- defaults.config (gulpfile.ts lines 29-38): the hard-coded default
configuration record. -/
def defaultsConfig : IVitaProjectConfiguration :=
  { id := some "HELLOWRLD"
    title := some "Hello World"
    ip := none
    ports := some { ftp := some 1337, cmd := some 1338 }
    srcDir := some "src"
    outDir := some "dist" }

/-- defaults.ebootFileName (gulpfile.ts line 26). -/
def ebootFileName : String := "eboot.bin"

/-- defaults.indexFileName (gulpfile.ts line 27). -/
def indexFileName : String := "index.lua"

/-- defaults.tempDir (gulpfile.ts line 28). -/
def tempDir : String := ".temp"

/-- Coercion of a possibly null or undefined JS string to the text a
template literal renders for it: a missing value renders as the text
undefined. -/
def jsString (o : Option String) : String :=
  match o with
  | some s => s
  | none => "undefined"

/-- Object.assign over the configuration record (gulpfile.ts lines 86-89):
every key present in the parsed file overwrites the corresponding key of
the target record; keys absent from the parsed file keep the target value.
In JS this mutates the target in place and returns it. -/
def objectAssign (target : IVitaProjectConfiguration) (p : ParsedConfiguration) :
    IVitaProjectConfiguration :=
  { id := p.id.getD target.id
    title := p.title.getD target.title
    ip := p.ip.getD target.ip
    ports := p.ports.getD target.ports
    srcDir := p.srcDir.getD target.srcDir
    outDir := p.outDir.getD target.outDir }

/-- readConfiguration (gulpfile.ts lines 83-92). The parameter d is the
current contents of the shared defaults.config record; fileExists models
fs.existsSync on the descriptor path, and p the JSON.parse result.
Object.assign(defaults.config, parsed) mutates defaults.config in place
and returns the same object, so the result pairs the returned
configuration with the new contents of defaults.config: they are equal. -/
def readConfiguration (d : IVitaProjectConfiguration) (fileExists : Bool)
    (p : ParsedConfiguration) :
    Except VitaError (IVitaProjectConfiguration × IVitaProjectConfiguration) :=
  if fileExists = false then Except.error VitaError.projectConfigFileIsMissing
  else
    let merged := objectAssign d p
    Except.ok (merged, merged)

/-- validateConfiguration (gulpfile.ts lines 94-101): throws
idDoesNotConformRequirements when id is null or its length is not 9, then
throws titleIsNotAvailable when title is null, and otherwise returns. -/
def validateConfiguration (c : IVitaProjectConfiguration) : Except VitaError Unit :=
  if (match c.id with
      | none => true
      | some i => decide (i.length ≠ 9)) then
    Except.error VitaError.idDoesNotConformRequirements
  else if c.title.isNone then
    Except.error VitaError.titleIsNotAvailable
  else
    Except.ok ()

/-- fs.existsSync over a filesystem modelled as the list of existing
paths. -/
def existsSync (fs : List String) (p : String) : Bool :=
  fs.contains p

/-- checkRequiredFiles (gulpfile.ts lines 102-112): checks the source
directory first, then the eboot file, then the index file, throwing the
matching error at the first absent path. -/
def checkRequiredFiles (fs : List String) (c : IVitaProjectConfiguration) :
    Except VitaError Unit :=
  let sd := jsString c.srcDir
  if existsSync fs (sd ++ "/") = false then
    Except.error VitaError.srcDirDoesntExists
  else if existsSync fs (sd ++ "/" ++ ebootFileName) = false then
    Except.error VitaError.ebootFileIsMissing
  else if existsSync fs (sd ++ "/" ++ indexFileName) = false then
    Except.error VitaError.indexFileIsMissing
  else
    Except.ok ()

/-- The netcat client value built by generateNetcatClient: address, port
and retry interval, as configured by the addr, port and retry calls. -/
structure NetcatClientModel where
  addr : String
  port : Nat
  retryMs : Nat
  deriving DecidableEq

/-- generateNetcatClient (gulpfile.ts lines 114-120): throws ipIsNotDefined
when the configuration ip is null, otherwise builds a client for that
address and the command port, resolved as
ports?.cmd ?? defaults.config.ports?.cmd ?? 1338, with retry 5000. The
parameter d is the current contents of defaults.config. -/
def generateNetcatClient (d c : IVitaProjectConfiguration) :
    Except VitaError NetcatClientModel :=
  match c.ip with
  | none => Except.error VitaError.ipIsNotDefined
  | some a =>
    Except.ok
      { addr := a
        port :=
          match c.ports.bind Ports.cmd with
          | some p => p
          | none =>
            match d.ports.bind Ports.cmd with
            | some p => p
            | none => 1338
        retryMs := 5000 }

/-- Observable actions of the command-socket client. -/
inductive NetEvent
  | connected (addr : String) (port : Nat)
  | sent (line : String)
  | closed
  deriving DecidableEq

/-- sendCmdAsync (gulpfile.ts lines 122-138): when generateNetcatClient
throws, the promise rejects with that error and no connection is opened
(empty event list); otherwise the client connects, sends the command text
followed by a newline, closes, and the promise resolves. -/
def sendCmdAsync (d c : IVitaProjectConfiguration) (cmd : String) :
    Except VitaError Unit × List NetEvent :=
  match generateNetcatClient d c with
  | Except.error e => (Except.error e, [])
  | Except.ok nc =>
    (Except.ok (),
      [NetEvent.connected nc.addr nc.port, NetEvent.sent (cmd ++ "\n"), NetEvent.closed])

/-- A file entry flowing through the gulp streams: a path relative to the
stream root and its bytes. -/
structure FileEntry where
  relPath : String
  contents : List Nat
  deriving DecidableEq

/-- The filter glob of processPipe (gulpfile.ts line 175), matching every
entry whose extension is bmp, png or jpg: the path ends in one of the
three dotted extensions. -/
def matchesImageGlob (p : String) : Bool :=
  [".bmp", ".png", ".jpg"].any fun ext => ext.toList.isSuffixOf p.toList

/-- processPipe (gulpfile.ts lines 174-179): the entries matching the
image glob pass through the pngquant recompression q (which replaces the
bytes and keeps the path), and the filter restore re-injects every other
entry unmodified. -/
def processPipe (q : List Nat → List Nat) (files : List FileEntry) :
    List FileEntry :=
  (files.filter fun e => matchesImageGlob e.relPath).map
      (fun e => { relPath := e.relPath, contents := q e.contents })
    ++ files.filter fun e => !matchesImageGlob e.relPath

/-- generatedSfoFile (gulpfile.ts lines 153-157): the sfo file produced by
vita-mksfoex from the configuration id and title, renamed to the fixed
package path sce_sys/param.sfo. The bytes produced by the external tool
are a parameter. -/
def generatedSfoFile (sfoBytes : List Nat) : FileEntry :=
  { relPath := "sce_sys/param.sfo", contents := sfoBytes }

/-- bundledFiles (gulpfile.ts lines 186-192): merges the generated sfo
entry with the processed source entries. -/
def bundledFiles (sfoBytes : List Nat) (q : List Nat → List Nat)
    (srcFiles : List FileEntry) : List FileEntry :=
  generatedSfoFile sfoBytes :: processPipe q srcFiles

/-- The single archive produced by build: its destination directory, its
file name and its entries. -/
structure BuiltArchive where
  destDir : Option String
  name : String
  entries : List FileEntry
  deriving DecidableEq

/-- build (gulpfile.ts lines 194-200): zips the bundled files into one
archive named from the configuration title with the vpk extension, written
to outDir ?? defaults.config.outDir. The parameter d is the current
contents of defaults.config, srcFiles the entries collected from the
source directory, and q the pngquant recompression. -/
def build (d c : IVitaProjectConfiguration) (sfoBytes : List Nat)
    (q : List Nat → List Nat) (srcFiles : List FileEntry) : BuiltArchive :=
  { destDir := c.outDir.orElse fun _ => d.outDir
    name := jsString c.title ++ ".vpk"
    entries := bundledFiles sfoBytes q srcFiles }

/-- The steps of the deploy sequence, in the order the spec names them;
navigation is one step per remote path segment. -/
inductive DeployStep
  | staging
  | stopping
  | connecting
  | navUx0
  | navApp
  | navId
  | uploading
  | closing
  | starting
  | cleaningUp
  deriving DecidableEq

/-- The full deploy sequence in order. -/
def allDeploySteps : List DeployStep :=
  [DeployStep.staging, DeployStep.stopping, DeployStep.connecting, DeployStep.navUx0,
   DeployStep.navApp, DeployStep.navId, DeployStep.uploading, DeployStep.closing,
   DeployStep.starting, DeployStep.cleaningUp]

/-- The state of the world a deploy runs against: whether the FTP server
accepts the connection, which of the fixed remote path segments exist
(ux0: and app), and which application directories exist under app. -/
structure DeployWorld where
  ftpReachable : Bool
  ux0 : Bool
  app : Bool
  appDirs : List String
  deriving DecidableEq

/-- deployPipeAsync (gulpfile.ts lines 202-235) as the list of steps that
complete, in order, paired with the error of the first failing step, if
any. Staging writes to the local temp directory and completes; the destroy
command is sent with sendCmdAsync and its rejection aborts the sequence;
ftp.access fails when the server is unreachable; the three ftp.cd calls
walk ux0:, app, then configuration.id ?? defaults.config.id, each failing
with remoteDirNotFound when the segment does not exist; then the upload,
the close, the launch command and the temp-directory cleanup follow. -/
def deployPipe (d c : IVitaProjectConfiguration) (w : DeployWorld) :
    List DeployStep × Option VitaError :=
  match (sendCmdAsync d c "destroy").1 with
  | Except.error e => ([DeployStep.staging], some e)
  | Except.ok _ =>
    if w.ftpReachable = false then
      ([DeployStep.staging, DeployStep.stopping], some VitaError.ftpConnectionFailed)
    else if w.ux0 = false then
      ([DeployStep.staging, DeployStep.stopping, DeployStep.connecting],
        some VitaError.remoteDirNotFound)
    else if w.app = false then
      ([DeployStep.staging, DeployStep.stopping, DeployStep.connecting, DeployStep.navUx0],
        some VitaError.remoteDirNotFound)
    else if w.appDirs.contains (jsString (c.id.orElse fun _ => d.id)) = false then
      ([DeployStep.staging, DeployStep.stopping, DeployStep.connecting, DeployStep.navUx0,
        DeployStep.navApp], some VitaError.remoteDirNotFound)
    else
      match (sendCmdAsync d c ("launch " ++ jsString c.id)).1 with
      | Except.error e =>
        ([DeployStep.staging, DeployStep.stopping, DeployStep.connecting, DeployStep.navUx0,
          DeployStep.navApp, DeployStep.navId, DeployStep.uploading, DeployStep.closing],
          some e)
      | Except.ok _ => (allDeploySteps, none)

/-- Settlement behaviour of a promise-returning operation: the steps that
have completed when the returned promise settles, the steps that keep
running in the background after settlement, and the rejection surfaced to
a caller that awaits the promise. -/
structure AsyncOutcome where
  resolvedSteps : List DeployStep
  backgroundSteps : List DeployStep
  rejection : Option VitaError
  deriving DecidableEq

/-- deployPipeAsync awaits each of its operations in turn, so when its
promise settles the whole trace has completed and the first failure is its
rejection. -/
def deployPipeAsyncOutcome (d c : IVitaProjectConfiguration) (w : DeployWorld) :
    AsyncOutcome :=
  { resolvedSteps := (deployPipe d c w).1
    backgroundSteps := []
    rejection := (deployPipe d c w).2 }

/-- deployAsync (gulpfile.ts lines 237-239) invokes deployPipeAsync
without await and without returning the promise. Its async body contains
no await, so under run-to-completion JS semantics its promise resolves at
the end of the synchronous body, before any asynchronous step of the pipe
has completed; the steps of the pipe run in the background after
resolution, and a pipe failure becomes an unhandled rejection instead of
rejecting deployAsync. -/
def deployAsync (d c : IVitaProjectConfiguration) (w : DeployWorld) :
    AsyncOutcome :=
  { resolvedSteps := []
    backgroundSteps := (deployPipe d c w).1
    rejection := none }

/-- A descriptor file that sets only the id. -/
def parsedIdOnly : ParsedConfiguration :=
  { id := some (some "TESTGAME1"), title := none, ip := none,
    ports := none, srcDir := none, outDir := none }

/-- A descriptor file that sets the id to a fresh nine-character value. -/
def parsedNewId : ParsedConfiguration :=
  { id := some (some "ABCDEFGHI"), title := none, ip := none,
    ports := none, srcDir := none, outDir := none }

/-- A descriptor file with no keys at all. -/
def parsedEmpty : ParsedConfiguration :=
  { id := none, title := none, ip := none,
    ports := none, srcDir := none, outDir := none }

/-- C2 (amended): for every configuration whose title is null,
validateConfiguration never succeeds, and when the id is valid (length 9)
it fails with the titleIsNotAvailable error. The original claim also
covered empty-string titles, but an empty title passes validation: see the
counterexample theorem. -/
theorem validateConfiguration_rejects_null_title (c : IVitaProjectConfiguration)
    (h : c.title = none) :
    validateConfiguration c ≠ Except.ok () ∧
    (∀ i, c.id = some i → i.length = 9 →
      validateConfiguration c = Except.error VitaError.titleIsNotAvailable) := by
  constructor
  · intro hok
    unfold validateConfiguration at hok
    rcases hid : c.id with _ | i
    · rw [hid] at hok
      simp at hok
    · rw [hid] at hok
      by_cases hl : i.length = 9
      · simp [hl, h] at hok
      · simp [hl] at hok
  · intro i hi hl
    simp [validateConfiguration, hi, hl, h]

/-- C2 counterexample: a configuration with a valid id and an empty (but
not null) title passes validateConfiguration, so validation can succeed on
an empty title. -/
theorem validateConfiguration_accepts_empty_title :
    validateConfiguration
      { id := some "HELLOWRLD", title := some "", ip := none, ports := none,
        srcDir := some "src", outDir := some "dist" } = Except.ok () := by
  rfl

/-- Witness for C2: the null-title theorem instantiated at a concrete
configuration with a valid id. -/
theorem validateConfiguration_rejects_null_title_witness :
    validateConfiguration
      { id := some "HELLOWRLD", title := none, ip := none, ports := none,
        srcDir := some "src", outDir := some "dist" } =
      Except.error VitaError.titleIsNotAvailable := by
  exact (validateConfiguration_rejects_null_title _ rfl).2 "HELLOWRLD" rfl rfl

/-- C6: for every configuration whose id is null or whose id length is not
9, validateConfiguration fails with the idDoesNotConformRequirements
error, whatever the title is: the id check runs first, so only the first
violation is reported. -/
theorem validateConfiguration_invalid_id_first (c : IVitaProjectConfiguration)
    (h : c.id = none ∨ ∃ i, c.id = some i ∧ i.length ≠ 9) :
    validateConfiguration c = Except.error VitaError.idDoesNotConformRequirements := by
  rcases h with h | ⟨i, hi, hl⟩
  · simp [validateConfiguration, h]
  · simp [validateConfiguration, hi, hl]

/-- Witness for C6: a configuration where both the id and the title are
null fails with the id error, not the title error. -/
theorem validateConfiguration_invalid_id_first_witness :
    validateConfiguration
      { id := none, title := none, ip := none, ports := none,
        srcDir := none, outDir := none } =
      Except.error VitaError.idDoesNotConformRequirements := by
  exact validateConfiguration_invalid_id_first _ (Or.inl rfl)

/-- C5: loading the configuration merges the parsed descriptor over the
default record key by key: every key present in the parsed file wins and
every key absent from the parsed file keeps the default value. -/
theorem readConfiguration_shallow_merge (d : IVitaProjectConfiguration)
    (p : ParsedConfiguration) (m s : IVitaProjectConfiguration)
    (h : readConfiguration d true p = Except.ok (m, s)) :
    (∀ v, p.id = some v → m.id = v) ∧ (p.id = none → m.id = d.id) ∧
    (∀ v, p.title = some v → m.title = v) ∧ (p.title = none → m.title = d.title) ∧
    (∀ v, p.ip = some v → m.ip = v) ∧ (p.ip = none → m.ip = d.ip) ∧
    (∀ v, p.ports = some v → m.ports = v) ∧ (p.ports = none → m.ports = d.ports) ∧
    (∀ v, p.srcDir = some v → m.srcDir = v) ∧ (p.srcDir = none → m.srcDir = d.srcDir) ∧
    (∀ v, p.outDir = some v → m.outDir = v) ∧ (p.outDir = none → m.outDir = d.outDir) := by
  have hm : m = objectAssign d p := by
    simp [readConfiguration] at h
    exact h.1.symm
  subst hm
  refine ⟨?_, ?_, ?_, ?_, ?_, ?_, ?_, ?_, ?_, ?_, ?_, ?_⟩ <;>
    first
      | (intro v hv
         simp [objectAssign, hv])
      | (intro hv
         simp [objectAssign, hv])

/-- Witness for C5: a descriptor that sets only the id yields a
configuration with the parsed id and the default title. -/
theorem readConfiguration_shallow_merge_witness :
    (objectAssign defaultsConfig parsedIdOnly).id = some "TESTGAME1" ∧
    (objectAssign defaultsConfig parsedIdOnly).title = some "Hello World" := by
  have h := readConfiguration_shallow_merge defaultsConfig parsedIdOnly
    (objectAssign defaultsConfig parsedIdOnly) (objectAssign defaultsConfig parsedIdOnly)
    rfl
  exact ⟨h.1 (some "TESTGAME1") rfl, (h.2.2.2.1 rfl).trans rfl⟩

/-- C10: readConfiguration returns the very record it stored back into
defaults.config (Object.assign mutates the shared defaults record in
place and returns it), so after one load the defaults equal the loaded
configuration, and a second load whose file lacks the id key falls back to
the first load result for that key rather than to the original default. -/
theorem readConfiguration_mutates_defaults (p1 p2 : ParsedConfiguration)
    (h2 : p2.id = none) (c1 d1 : IVitaProjectConfiguration)
    (h1 : readConfiguration defaultsConfig true p1 = Except.ok (c1, d1)) :
    d1 = c1 ∧
    ∀ c2 d2, readConfiguration d1 true p2 = Except.ok (c2, d2) →
      d2 = c2 ∧ c2.id = c1.id := by
  simp [readConfiguration] at h1
  obtain ⟨hc1, hd1⟩ := h1
  subst hc1
  subst hd1
  refine ⟨rfl, ?_⟩
  intro c2 d2 h
  simp [readConfiguration] at h
  obtain ⟨hc2, hd2⟩ := h
  subst hc2
  subst hd2
  exact ⟨rfl, by simp [objectAssign, h2]⟩

/-- Witness for C10: after loading a file that sets the id to ABCDEFGHI, a
second load from a file with no keys still yields that id, which differs
from the original default id. -/
theorem readConfiguration_mutates_defaults_witness :
    (objectAssign (objectAssign defaultsConfig parsedNewId) parsedEmpty).id
      = some "ABCDEFGHI" ∧
    (objectAssign defaultsConfig parsedNewId).id ≠ defaultsConfig.id := by
  have h := readConfiguration_mutates_defaults parsedNewId parsedEmpty rfl
    (objectAssign defaultsConfig parsedNewId) (objectAssign defaultsConfig parsedNewId)
    rfl
  have h2 := (h.2 (objectAssign (objectAssign defaultsConfig parsedNewId) parsedEmpty)
    (objectAssign (objectAssign defaultsConfig parsedNewId) parsedEmpty) rfl).2
  exact ⟨h2.trans rfl, by decide⟩

/-- C7: checkRequiredFiles reports the missing source directory before any
file check, then the missing eboot file, then the missing index file, in
that order. -/
theorem checkRequiredFiles_check_order (fs : List String)
    (c : IVitaProjectConfiguration) :
    (existsSync fs (jsString c.srcDir ++ "/") = false →
      checkRequiredFiles fs c = Except.error VitaError.srcDirDoesntExists) ∧
    (existsSync fs (jsString c.srcDir ++ "/") = true →
      existsSync fs (jsString c.srcDir ++ "/" ++ ebootFileName) = false →
      checkRequiredFiles fs c = Except.error VitaError.ebootFileIsMissing) ∧
    (existsSync fs (jsString c.srcDir ++ "/") = true →
      existsSync fs (jsString c.srcDir ++ "/" ++ ebootFileName) = true →
      existsSync fs (jsString c.srcDir ++ "/" ++ indexFileName) = false →
      checkRequiredFiles fs c = Except.error VitaError.indexFileIsMissing) := by
  refine ⟨fun h1 => ?_, fun h1 h2 => ?_, fun h1 h2 h3 => ?_⟩ <;>
    simp [checkRequiredFiles, *]

/-- Witness for C7: on concrete filesystems missing the source directory,
the eboot file, or the index file, the matching error is returned. -/
theorem checkRequiredFiles_check_order_witness :
    checkRequiredFiles [] defaultsConfig = Except.error VitaError.srcDirDoesntExists ∧
    checkRequiredFiles ["src/"] defaultsConfig =
      Except.error VitaError.ebootFileIsMissing ∧
    checkRequiredFiles ["src/", "src/eboot.bin"] defaultsConfig =
      Except.error VitaError.indexFileIsMissing := by
  refine ⟨(checkRequiredFiles_check_order [] defaultsConfig).1 (by decide),
    (checkRequiredFiles_check_order ["src/"] defaultsConfig).2.1 (by decide) (by decide),
    (checkRequiredFiles_check_order ["src/", "src/eboot.bin"] defaultsConfig).2.2
      (by decide) (by decide) (by decide)⟩

/-- A deploy target where the FTP server is reachable and the whole remote
path for the default application id exists. -/
def worldAllGood : DeployWorld :=
  { ftpReachable := true, ux0 := true, app := true, appDirs := ["HELLOWRLD"] }

/-- A deploy target where ux0: and app exist but no application directory
does. -/
def worldNoAppDir : DeployWorld :=
  { ftpReachable := true, ux0 := true, app := true, appDirs := [] }

/-- A configuration with a device address set, otherwise the defaults. -/
def cfgDeployExample : IVitaProjectConfiguration :=
  { id := some "HELLOWRLD", title := some "Hello World", ip := some "192.168.1.100",
    ports := some { ftp := some 1337, cmd := some 1338 },
    srcDir := some "src", outDir := some "dist" }

/-- C8: processPipe recompresses only the entries whose extension matches
the image glob; every other entry passes through with unchanged bytes and
unchanged relative path, every output entry arises from some input entry,
and an input containing no image entries is returned unchanged. -/
theorem processPipe_non_images_unchanged (q : List Nat → List Nat)
    (files : List FileEntry) :
    (∀ e ∈ files, matchesImageGlob e.relPath = false → e ∈ processPipe q files) ∧
    (∀ e ∈ processPipe q files,
      (∃ e0 ∈ files, matchesImageGlob e0.relPath = true ∧
        e = { relPath := e0.relPath, contents := q e0.contents }) ∨
      (e ∈ files ∧ matchesImageGlob e.relPath = false)) ∧
    ((∀ e ∈ files, matchesImageGlob e.relPath = false) →
      processPipe q files = files) := by
  refine ⟨?_, ?_, ?_⟩
  · intro e he hne
    unfold processPipe
    refine List.mem_append_right _ ?_
    simp [List.mem_filter, he, hne]
  · intro e he
    unfold processPipe at he
    rcases List.mem_append.mp he with h | h
    · obtain ⟨e0, he0, rfl⟩ := List.mem_map.mp h
      have h1 := List.mem_filter.mp he0
      exact Or.inl ⟨e0, h1.1, h1.2, rfl⟩
    · have h1 := List.mem_filter.mp h
      refine Or.inr ⟨h1.1, ?_⟩
      simpa using h1.2
  · intro hall
    unfold processPipe
    have h1 : files.filter (fun e => matchesImageGlob e.relPath) = [] := by
      refine List.filter_eq_nil_iff.mpr ?_
      intro e he
      simp [hall e he]
    have h2 : (files.filter fun e => !matchesImageGlob e.relPath) = files := by
      refine List.filter_eq_self.mpr ?_
      intro e he
      simp [hall e he]
    rw [h1, h2]
    rfl

/-- Witness for C8: a lone lua entry is passed through unchanged and the
output list equals the input list. -/
theorem processPipe_non_images_unchanged_witness :
    ({ relPath := "index.lua", contents := [1] } : FileEntry) ∈
      processPipe id [{ relPath := "index.lua", contents := [1] }] ∧
    processPipe id [{ relPath := "index.lua", contents := [1] }] =
      [{ relPath := "index.lua", contents := [1] }] := by
  have h := processPipe_non_images_unchanged id
    [{ relPath := "index.lua", contents := [1] }]
  refine ⟨h.1 _ (by decide) (by decide), h.2.2 (by decide)⟩

/-- processPipe preserves the multiset of relative paths: recompression
replaces bytes but keeps every path, and the filter-restore split is a
permutation of the input. -/
theorem processPipe_relPath_perm (q : List Nat → List Nat)
    (files : List FileEntry) :
    ((processPipe q files).map FileEntry.relPath).Perm
      (files.map FileEntry.relPath) := by
  have h := (List.filter_append_perm (fun e => matchesImageGlob e.relPath) files).map
    FileEntry.relPath
  simpa [processPipe, List.map_append, List.map_map, Function.comp] using h

/-- C9: for a configuration with a title, build produces exactly one
archive: its name is the title followed by the vpk extension, it is
written to the configured output directory, its first entry is the
sce_sys/param.sfo metadata entry, and its entry paths are exactly the
source file paths plus that metadata path. -/
theorem build_archive_shape (d c : IVitaProjectConfiguration) (t : String)
    (ht : c.title = some t) (sfoBytes : List Nat) (q : List Nat → List Nat)
    (srcFiles : List FileEntry) :
    (build d c sfoBytes q srcFiles).name = t ++ ".vpk" ∧
    (∀ o, c.outDir = some o → (build d c sfoBytes q srcFiles).destDir = some o) ∧
    (build d c sfoBytes q srcFiles).entries.head? =
      some { relPath := "sce_sys/param.sfo", contents := sfoBytes } ∧
    ((build d c sfoBytes q srcFiles).entries.map FileEntry.relPath).Perm
      ("sce_sys/param.sfo" :: srcFiles.map FileEntry.relPath) := by
  refine ⟨by simp [build, jsString, ht], ?_, rfl, ?_⟩
  · intro o ho
    simp [build, ho, Option.orElse]
  · have h := (processPipe_relPath_perm q srcFiles).cons "sce_sys/param.sfo"
    simpa [build, bundledFiles, generatedSfoFile] using h

/-- The Test Game example configuration from the spec. -/
def cfgTestGame : IVitaProjectConfiguration :=
  { id := some "TESTGAME1", title := some "Test Game", ip := none,
    ports := some { ftp := some 1337, cmd := some 1338 },
    srcDir := some "src", outDir := some "dist" }

/-- A complete source directory listing: the loader binary and the entry
script. -/
def srcFilesExample : List FileEntry :=
  [{ relPath := "eboot.bin", contents := [0, 1] },
   { relPath := "index.lua", contents := [2] }]

/-- Witness for C9: the Test Game example configuration produces the
archive named Test Game.vpk in dist, with the metadata entry and both
source paths. -/
theorem build_archive_shape_witness :
    (build defaultsConfig cfgTestGame [7] id srcFilesExample).name = "Test Game.vpk" ∧
    (build defaultsConfig cfgTestGame [7] id srcFilesExample).destDir = some "dist" ∧
    ((build defaultsConfig cfgTestGame [7] id srcFilesExample).entries.map
      FileEntry.relPath).Perm ["sce_sys/param.sfo", "eboot.bin", "index.lua"] := by
  have h := build_archive_shape defaultsConfig cfgTestGame "Test Game" rfl [7] id
    srcFilesExample
  exact ⟨h.1, h.2.1 "dist" rfl, by simpa [srcFilesExample] using h.2.2.2⟩

/-- C3: with the device address unset, sendCmdAsync rejects with the
ipIsNotDefined error without opening any connection, and the deploy
workflow fails with that error at the stop command, never reaching the
FTP connect. -/
theorem ip_missing_blocks_network (d c : IVitaProjectConfiguration)
    (cmd : String) (w : DeployWorld) (h : c.ip = none) :
    (sendCmdAsync d c cmd).1 = Except.error VitaError.ipIsNotDefined ∧
    (sendCmdAsync d c cmd).2 = [] ∧
    (deployPipe d c w).2 = some VitaError.ipIsNotDefined ∧
    DeployStep.connecting ∉ (deployPipe d c w).1 := by
  have hnc : generateNetcatClient d c = Except.error VitaError.ipIsNotDefined := by
    simp [generateNetcatClient, h]
  refine ⟨?_, ?_, ?_, ?_⟩ <;> simp [sendCmdAsync, deployPipe, hnc]

/-- Witness for C3: the default configuration has no device address, so
the destroy command rejects with no connection opened and the deploy
workflow stops before connecting. -/
theorem ip_missing_blocks_network_witness :
    (sendCmdAsync defaultsConfig defaultsConfig "destroy").1 =
      Except.error VitaError.ipIsNotDefined ∧
    (sendCmdAsync defaultsConfig defaultsConfig "destroy").2 = [] ∧
    (deployPipe defaultsConfig defaultsConfig worldAllGood).2 =
      some VitaError.ipIsNotDefined ∧
    DeployStep.connecting ∉ (deployPipe defaultsConfig defaultsConfig worldAllGood).1 := by
  exact ip_missing_blocks_network defaultsConfig defaultsConfig "destroy" worldAllGood rfl

/-- C4: once the deploy reaches navigation (device address set, FTP
server reachable), a missing remote segment among ux0:, app and the
application id directory makes the deploy fail with remoteDirNotFound and
the upload step is never executed. -/
theorem deploy_navigation_failure_aborts (d c : IVitaProjectConfiguration)
    (w : DeployWorld) (a : String) (hip : c.ip = some a)
    (hftp : w.ftpReachable = true)
    (hnav : w.ux0 = false ∨ w.app = false ∨
      w.appDirs.contains (jsString (c.id.orElse fun _ => d.id)) = false) :
    (deployPipe d c w).2 = some VitaError.remoteDirNotFound ∧
    DeployStep.uploading ∉ (deployPipe d c w).1 := by
  have hsc : (sendCmdAsync d c "destroy").1 = Except.ok () := by
    simp [sendCmdAsync, generateNetcatClient, hip]
  cases hux : w.ux0
  · refine ⟨?_, ?_⟩ <;> simp [deployPipe, hsc, hftp, hux]
  · cases hap : w.app
    · refine ⟨?_, ?_⟩ <;> simp [deployPipe, hsc, hftp, hux, hap]
    · rcases hnav with h | h | h
      · rw [hux] at h
        cases h
      · rw [hap] at h
        cases h
      · have h2 : jsString (c.id.orElse fun _ => d.id) ∉ w.appDirs := by
          simpa using h
        refine ⟨?_, ?_⟩ <;> simp [deployPipe, hsc, hftp, hux, hap, h2]

/-- Witness for C4: with an empty application directory listing, the
deploy fails with remoteDirNotFound and never uploads. -/
theorem deploy_navigation_failure_aborts_witness :
    (deployPipe defaultsConfig cfgDeployExample worldNoAppDir).2 =
      some VitaError.remoteDirNotFound ∧
    DeployStep.uploading ∉ (deployPipe defaultsConfig cfgDeployExample worldNoAppDir).1 := by
  exact deploy_navigation_failure_aborts defaultsConfig cfgDeployExample worldNoAppDir
    "192.168.1.100" rfl rfl (Or.inr (Or.inr (by decide)))

/-- C1 (code bug): on a fully available device the inner deployPipeAsync
completes every step of the deploy sequence in order with no error, and a
caller awaiting it sees the whole sequence resolved; but deployAsync,
which the deploy task awaits, starts the pipe without awaiting or
returning it, so its promise resolves with no step of the sequence yet
completed. -/
theorem deployAsync_resolves_before_steps :
    (deployPipe defaultsConfig cfgDeployExample worldAllGood).1 = allDeploySteps ∧
    (deployPipe defaultsConfig cfgDeployExample worldAllGood).2 = none ∧
    (deployPipeAsyncOutcome defaultsConfig cfgDeployExample worldAllGood).resolvedSteps =
      allDeploySteps ∧
    (deployAsync defaultsConfig cfgDeployExample worldAllGood).resolvedSteps = [] := by
  refine ⟨?_, ?_, ?_, ?_⟩ <;> rfl
